import Mathlib

/-!
# Verification of the resumable, retrying, LLM-backed row-classification pipeline

Shallow embedding of the control-flow core of the CAMEO_TurkeyandIsrael scripts:

* the retry wrapper `call_with_retries` (src/CAMEO-3.py lines 37-46; the copy in
  src/Societal_sentiment.py lines 47-63 has identical control flow, differing only
  in log output);
* the CSV sink helpers `ensure_output_csv`, `load_existing_results`,
  `append_record` (src/CAMEO-3.py lines 564-586);
* the classifier-client wrappers `get_cameo_events_with_llm` and
  `get_summary_with_llm` (src/CAMEO-3.py lines 510-542);
* the `main` loop of src/CAMEO-3.py (lines 590-667) and, for contrast, the
  `main` loop of src/Filter-3.2.py (lines 94-133) which has no resume logic.

The remote chat-completion service is modeled as an oracle: a function from the
attempt number to the outcome of that attempt (`Except String` of the reply
text).  JSON parsing of a reply is likewise an oracle `String → Except String _`
since the JSON library is external to the repository.  Python exceptions are
`Except.error` values; a Python function that falls off the end of its body
returns the distinguished value `RetryResult.pyNone` (Python `None`).
-/

/-- `MAX_RETRIES = 4` (src/CAMEO-3.py line 19). -/
def MAX_RETRIES : Nat := 4

/-- `RETRY_BACKOFF_SECONDS = 5` (src/CAMEO-3.py line 20). -/
def RETRY_BACKOFF_SECONDS : Nat := 5

/-- Outcome of `call_with_retries`: a returned value, a re-raised exception, or
Python's implicit `None` when the `for` loop body never runs
(`range(1, max_attempts + 1)` is empty, i.e. `max_attempts < 1`). -/
inductive RetryResult (ε α : Type) where
  | ok (a : α)
  | raised (e : ε)
  | pyNone
  deriving DecidableEq, Repr

/-- Observable behaviour of one execution of `call_with_retries`: how many times
`fn` was invoked, the list of sleep durations in order, and the final outcome. -/
structure RetryTrace (ε α : Type) where
  calls : Nat
  sleeps : List Nat
  result : RetryResult ε α
  deriving DecidableEq, Repr

/-- Body of the `for attempt in range(1, max_attempts + 1)` loop of
`call_with_retries` (src/CAMEO-3.py lines 38-46).  `attempt` is the current
1-based attempt number; `remaining` counts the attempts still available
(invariant: `remaining = max_attempts + 1 - attempt`), so `remaining = 0` after
pattern matching off one attempt corresponds to `attempt == max_attempts`.
`fn k` is the outcome of the k-th invocation of the zero-argument operation. -/
def callWithRetriesAux (fn : Nat → Except ε α) (backoff : Nat) :
    Nat → Nat → RetryTrace ε α
  | _, 0 => { calls := 0, sleeps := [], result := RetryResult.pyNone }
  | attempt, remaining + 1 =>
    match fn attempt with
    | Except.ok a => { calls := 1, sleeps := [], result := RetryResult.ok a }
    | Except.error e =>
      if remaining = 0 then
        { calls := 1, sleeps := [], result := RetryResult.raised e }
      else
        let rest := callWithRetriesAux fn backoff (attempt + 1) remaining
        { calls := rest.calls + 1
          sleeps := backoff * attempt :: rest.sleeps
          result := rest.result }

/-- `call_with_retries(fn, max_attempts)` (src/CAMEO-3.py lines 37-46).  The
backoff base is the module constant `RETRY_BACKOFF_SECONDS`; it is kept as an
explicit parameter so the sleep durations can be stated for any base. -/
def call_with_retries (fn : Nat → Except ε α) (max_attempts backoff : Nat) :
    RetryTrace ε α :=
  callWithRetriesAux fn backoff 1 max_attempts

/-- The loop makes at most `remaining` invocations of `fn`. -/
theorem callWithRetriesAux_calls_le (fn : Nat → Except ε α) (backoff : Nat) :
    ∀ remaining attempt, (callWithRetriesAux fn backoff attempt remaining).calls ≤ remaining := by
  intro remaining
  induction remaining with
  | zero => intro attempt; simp [callWithRetriesAux]
  | succ r ih =>
    intro attempt
    simp only [callWithRetriesAux]
    cases fn attempt with
    | ok a => simp
    | error e =>
      by_cases hr : r = 0
      · simp [hr]
      · simp only [if_neg hr]
        have := ih (attempt + 1)
        omega

/-- If every available attempt fails, the loop exhausts all attempts and
re-raises the exception of the final one. -/
theorem callWithRetriesAux_all_fail (fn : Nat → Except ε α) (backoff : Nat) :
    ∀ remaining attempt (e : ε), 1 ≤ remaining →
      (∀ k, attempt ≤ k → k ≤ attempt + remaining - 1 → ∃ e', fn k = Except.error e') →
      fn (attempt + remaining - 1) = Except.error e →
      (callWithRetriesAux fn backoff attempt remaining).calls = remaining ∧
      (callWithRetriesAux fn backoff attempt remaining).result = RetryResult.raised e := by
  intro remaining
  induction remaining with
  | zero => intro attempt e h; omega
  | succ r ih =>
    intro attempt e _ hall hlast
    by_cases hr : r = 0
    · subst hr
      have hA : attempt + 1 - 1 = attempt := by omega
      rw [hA] at hlast
      simp [callWithRetriesAux, hlast]
    · obtain ⟨e1, he1⟩ := hall attempt (Nat.le_refl _) (by omega)
      have hrest := ih (attempt + 1) e (by omega)
        (fun k hk1 hk2 => hall k (by omega) (by omega))
        (by
          have hA : attempt + 1 + r - 1 = attempt + (r + 1) - 1 := by omega
          rw [hA]; exact hlast)
      simp only [callWithRetriesAux, he1, if_neg hr]
      constructor
      · simp [hrest.1]
      · simp [hrest.2]

/-- **C2**: for every zero-argument operation and every `max_attempts`, the
retry wrapper invokes the operation at most `max_attempts` times; and whenever
`max_attempts ≥ 1` (so that a final attempt exists) and every invocation
raises, it re-raises the exception of the final attempt to the caller
(src/CAMEO-3.py lines 37-46). -/
theorem retry_bounded_and_reraises_last (fn : Nat → Except ε α) (n b : Nat) :
    (call_with_retries fn n b).calls ≤ n ∧
    (∀ e : ε, 1 ≤ n →
      (∀ k, 1 ≤ k → k ≤ n → ∃ e', fn k = Except.error e') →
      fn n = Except.error e →
      (call_with_retries fn n b).result = RetryResult.raised e) := by
  constructor
  · exact callWithRetriesAux_calls_le fn b n 1
  · intro e hn hall hlast
    have hlast' : fn (1 + n - 1) = Except.error e := by
      have hA : 1 + n - 1 = n := by omega
      rw [hA]
      exact hlast
    have h := callWithRetriesAux_all_fail fn b n 1 e hn
      (fun k hk1 hk2 => hall k hk1 (by omega)) hlast'
    exact h.2

/-- Witness for C2: an operation that always raises, with `max_attempts = 2`. -/
theorem retry_bounded_and_reraises_last_witness :
    (call_with_retries (fun _ => (Except.error "boom" : Except String Nat)) 2 5).calls ≤ 2 ∧
    (call_with_retries (fun _ => (Except.error "boom" : Except String Nat)) 2 5).result
      = RetryResult.raised "boom" :=
  ⟨(retry_bounded_and_reraises_last (fun _ => Except.error "boom") 2 5).1,
   (retry_bounded_and_reraises_last (fun _ => Except.error "boom") 2 5).2 "boom"
     (by decide) (fun k _ _ => ⟨"boom", rfl⟩) rfl⟩

/-- **C3**: if the operation raises on its first two invocations and succeeds on
the third (and the attempt budget allows a third attempt, as the default
`MAX_RETRIES = 4` does), the wrapper sleeps exactly twice, for `backoff * 1`
then `backoff * 2`, makes exactly three calls, and returns the third
invocation's value (src/CAMEO-3.py lines 37-46). -/
theorem retry_two_failures_then_success (fn : Nat → Except ε α) (n b : Nat)
    (a : α) (e1 e2 : ε)
    (h1 : fn 1 = Except.error e1) (h2 : fn 2 = Except.error e2)
    (h3 : fn 3 = Except.ok a) (hn : 3 ≤ n) :
    (call_with_retries fn n b).sleeps = [b * 1, b * 2] ∧
    (call_with_retries fn n b).calls = 3 ∧
    (call_with_retries fn n b).result = RetryResult.ok a := by
  obtain ⟨r, rfl⟩ : ∃ r, n = r + 3 := ⟨n - 3, by omega⟩
  simp [call_with_retries, callWithRetriesAux, h1, h2, h3]

/-- Witness for C3 at a concrete operation, `max_attempts = 4`, backoff 5. -/
theorem retry_two_failures_then_success_witness :
    (call_with_retries
        (fun k => if k ≤ 2 then Except.error "boom" else (Except.ok 7 : Except String Nat))
        MAX_RETRIES 5).sleeps = [5 * 1, 5 * 2] ∧
    (call_with_retries
        (fun k => if k ≤ 2 then Except.error "boom" else (Except.ok 7 : Except String Nat))
        MAX_RETRIES 5).calls = 3 ∧
    (call_with_retries
        (fun k => if k ≤ 2 then Except.error "boom" else (Except.ok 7 : Except String Nat))
        MAX_RETRIES 5).result = RetryResult.ok 7 :=
  retry_two_failures_then_success _ MAX_RETRIES 5 7 "boom" "boom"
    rfl rfl rfl (by decide)

/-- **C10**: with an attempt budget below 1 the `for` loop of
`call_with_retries` never runs: the operation is not invoked, nothing is
raised, and the function returns Python `None` (src/CAMEO-3.py lines 37-46;
`range(1, max_attempts + 1)` is empty for every `max_attempts < 1`, which the
`Nat` embedding represents as `0`). -/
theorem retry_zero_budget_returns_none (fn : Nat → Except ε α) (n b : Nat)
    (h : n < 1) :
    call_with_retries fn n b =
      { calls := 0, sleeps := [], result := RetryResult.pyNone } := by
  obtain rfl : n = 0 := by omega
  rfl

/-- Witness for C10 at `max_attempts = 0`. -/
theorem retry_zero_budget_returns_none_witness :
    (0 : Nat) < 1 ∧
    call_with_retries (fun _ => (Except.ok 3 : Except String Nat)) 0 5 =
      { calls := 0, sleeps := [], result := RetryResult.pyNone } :=
  ⟨by decide, retry_zero_budget_returns_none _ 0 5 (by decide)⟩

/-! ## The CSV sink

A CSV output file is `none` while it does not exist.  `headerCount` counts how
many header lines have been written into the file over its whole history; the
rows are the data records in order. -/

/-- State of an output CSV file: `none` = the file does not exist. -/
structure CsvFile (ρ : Type) where
  headerCount : Nat
  rows : List ρ
  deriving DecidableEq, Repr

/-- `ensure_output_csv` (src/CAMEO-3.py lines 564-570): if the file does not
exist, create it containing only the header line. -/
def ensure_output_csv (file : Option (CsvFile ρ)) : Option (CsvFile ρ) :=
  match file with
  | some f => some f
  | none => some { headerCount := 1, rows := [] }

/-- `load_existing_results` (src/CAMEO-3.py lines 573-576): the rows currently
in the file, or an empty table when the file does not exist. -/
def load_existing_results (file : Option (CsvFile ρ)) : List ρ :=
  match file with
  | some f => f.rows
  | none => []

/-- `append_record` (src/CAMEO-3.py lines 579-586): `to_csv(mode="a",
header=not OUTPUT_CSV_PATH.exists())` — append one record; a header line is
written only when the file is being created by this very write. -/
def append_record (file : Option (CsvFile ρ)) (record : ρ) : Option (CsvFile ρ) :=
  match file with
  | some f => some { headerCount := f.headerCount, rows := f.rows ++ [record] }
  | none => some { headerCount := 1, rows := [record] }

/-- The append used by src/Societal_sentiment.py lines 228-230:
`to_csv(mode="a", header=False)` — never writes a header, even when the write
creates the file. -/
def append_row_no_header (file : Option (CsvFile ρ)) (record : ρ) : Option (CsvFile ρ) :=
  match file with
  | some f => some { headerCount := f.headerCount, rows := f.rows ++ [record] }
  | none => some { headerCount := 0, rows := [record] }

/-- One filesystem-visible operation on the CAMEO-3 output sink. -/
inductive SinkOp (ρ : Type) where
  | ensure
  | append (record : ρ)

/-- Run a sequence of sink operations against a file state
(CAMEO-3 semantics: appends add the header if they create the file). -/
def applySinkOps (file : Option (CsvFile ρ)) : List (SinkOp ρ) → Option (CsvFile ρ)
  | [] => file
  | SinkOp.ensure :: rest => applySinkOps (ensure_output_csv file) rest
  | SinkOp.append r :: rest => applySinkOps (append_record file r) rest

/-- Run a sequence of sink operations with Societal_sentiment append semantics
(`header=False` on every append). -/
def applySinkOpsNoHeader (file : Option (CsvFile ρ)) : List (SinkOp ρ) → Option (CsvFile ρ)
  | [] => file
  | SinkOp.ensure :: rest => applySinkOpsNoHeader (ensure_output_csv file) rest
  | SinkOp.append r :: rest => applySinkOpsNoHeader (append_row_no_header file r) rest

/-- Python `str.strip()`: remove whitespace from both ends of a string. -/
def pyStrip (s : String) : String :=
  String.mk (((s.data.dropWhile Char.isWhitespace).reverse.dropWhile Char.isWhitespace).reverse)

/-- Python `s[:n]`: the first `n` characters of a string. -/
def pyTake (s : String) (n : Nat) : String :=
  String.mk (s.data.take n)

/-! ## CAMEO-3.py -/

namespace CAMEO3

/-- One row of the input table `Dunya_Tur2.csv` as accessed by
src/CAMEO-3.py: `row.get(column, "")` stringified.  A column absent from the
table is the empty string. -/
structure InputRow where
  NewsID : String
  Content : String
  NewsSource : String
  EventDate : String
  Source : String
  deriving DecidableEq, Repr

/-- One event object of the parsed JSON reply, holding the CSV-cell rendering
of each JSON field when present (`ev.get(key, default)`,
src/CAMEO-3.py lines 648-665). -/
structure CameoEvent where
  event_order : Option String
  source_actor : Option String
  target_actor : Option String
  cameo_top_level : Option String
  cameo_code : Option String
  event_description : Option String
  evidence : Option String
  confidence : Option String
  deriving DecidableEq, Repr

/-- The parsed JSON object returned by the events task: its `events` list
(absent key = empty list, matching `cameo_data.get("events", [])`) and the
optional `error` key of the failure sentinel. -/
structure CameoData where
  events : List CameoEvent
  error : Option String
  deriving DecidableEq, Repr

/-- `run_chat_completion` (src/CAMEO-3.py lines 54-63): one chat-completion
call through `call_with_retries` with the default budget `MAX_RETRIES` and
backoff `RETRY_BACKOFF_SECONDS`; `api k` is the outcome of the k-th attempt. -/
def run_chat_completion (api : Nat → Except String String) : RetryTrace String String :=
  call_with_retries api MAX_RETRIES RETRY_BACKOFF_SECONDS

/-- The exception `json.loads(None)` would raise if `call_with_retries`
returned `None`; unreachable because `run_chat_completion` always uses
`MAX_RETRIES = 4 ≥ 1`. -/
def jsonLoadsNone : Except String CameoData :=
  Except.error "the JSON object must be str, bytes or bytearray, not NoneType"

/-- Result of the `try` block of `get_cameo_events_with_llm`
(src/CAMEO-3.py lines 510-521): the chat call followed by `json.loads`, where
`parse` is the JSON-library oracle. -/
def cameoTryBody (api : Nat → Except String String)
    (parse : String → Except String CameoData) : Except String CameoData :=
  match (run_chat_completion api).result with
  | RetryResult.ok content => parse content
  | RetryResult.raised exc => Except.error exc
  | RetryResult.pyNone => jsonLoadsNone

/-- `get_cameo_events_with_llm` (src/CAMEO-3.py lines 510-524): any failure is
caught and converted to the sentinel dict with an empty `events` list and the
exception text under the `error` key. -/
def get_cameo_events_with_llm (api : Nat → Except String String)
    (parse : String → Except String CameoData) : CameoData :=
  match cameoTryBody api parse with
  | Except.ok d => d
  | Except.error exc => { events := [], error := some exc }

/-- The exception `None.strip()` would raise in `get_summary_with_llm` if
`call_with_retries` returned `None`; unreachable for `MAX_RETRIES = 4`. -/
def noneStripError : String := "NoneType object has no attribute strip"

/-- `get_summary_with_llm` (src/CAMEO-3.py lines 528-542): the stripped reply
text, or the stringified exception prefixed with `Error: ` when the call
(after retries) raised. -/
def get_summary_with_llm (api : Nat → Except String String) : String :=
  match (run_chat_completion api).result with
  | RetryResult.ok out => pyStrip out
  | RetryResult.raised exc => "Error: " ++ exc
  | RetryResult.pyNone => "Error: " ++ noneStripError

/-- One row of the output table `CAMEO_Dunya_Tur2_OPENAI.csv`
(`OUTPUT_COLUMNS`, src/CAMEO-3.py lines 546-561). -/
structure OutputRecord where
  NewsID : String
  Source : String
  Date : String
  Title : String
  summary : String
  event_order : String
  source_actor : String
  target_actor : String
  cameo_top_level : String
  cameo_code : String
  event_description : String
  evidence : String
  confidence : String
  deriving DecidableEq, Repr

/-- The blank record written when a row yields zero events
(src/CAMEO-3.py lines 625-641). -/
def blankRecord (news_id : String) (row : InputRow) (summary : String) : OutputRecord :=
  { NewsID := news_id
    Source := row.NewsSource
    Date := row.EventDate
    Title := row.Source
    summary := summary
    event_order := ""
    source_actor := ""
    target_actor := ""
    cameo_top_level := ""
    cameo_code := ""
    event_description := ""
    evidence := ""
    confidence := "" }

/-- The record written for one detected event (src/CAMEO-3.py lines 648-665);
`event_order` defaults to `1` when missing. -/
def eventRecord (news_id : String) (row : InputRow) (summary : String)
    (ev : CameoEvent) : OutputRecord :=
  { NewsID := news_id
    Source := row.NewsSource
    Date := row.EventDate
    Title := row.Source
    summary := summary
    event_order := ev.event_order.getD "1"
    source_actor := ev.source_actor.getD ""
    target_actor := ev.target_actor.getD ""
    cameo_top_level := ev.cameo_top_level.getD ""
    cameo_code := ev.cameo_code.getD ""
    event_description := ev.event_description.getD ""
    evidence := ev.evidence.getD ""
    confidence := ev.confidence.getD "" }

/-- The records a processed row appends: one blank record when the events list
is empty, else one record per event (src/CAMEO-3.py lines 623-665). -/
def rowRecords (news_id : String) (row : InputRow) (cameo_data : CameoData)
    (summary : String) : List OutputRecord :=
  if cameo_data.events.isEmpty then [blankRecord news_id row summary]
  else cameo_data.events.map (eventRecord news_id row summary)

/-- Oracle for the two classification tasks of one row: the per-attempt
outcomes of each chat call and the JSON-library behaviour on the reply. -/
structure RowOracle where
  cameoApi : Nat → Except String String
  cameoParse : String → Except String CameoData
  summaryApi : Nat → Except String String

/-- Number of remote classification calls (request/response round trips,
attempts included) that processing one row issues. -/
def rowCallCount (orc : RowOracle) : Nat :=
  (run_chat_completion orc.cameoApi).calls + (run_chat_completion orc.summaryApi).calls

end CAMEO3

/-! ## Events observed by the main loop -/

/-- A durably observable action of a pipeline main loop: appending one record
to the output table, or adding an identifier to the in-memory
`processed_ids` set. -/
inductive MainEvent (ρ : Type) where
  | append (record : ρ)
  | addId (id : String)
  deriving DecidableEq, Repr

/-- Replay the durable effect of a main-loop event list on the output file:
appends write (CAMEO-3 `append_record` semantics), `addId` is in-memory only.
`applyLog file (log.take p)` is the file a run killed after its first `p`
events leaves behind. -/
def applyLog (file : Option (CsvFile ρ)) : List (MainEvent ρ) → Option (CsvFile ρ)
  | [] => file
  | MainEvent.append r :: rest => applyLog (append_record file r) rest
  | MainEvent.addId _ :: rest => applyLog file rest

/-- A main-loop event list in which every `addId id` closes a block of one or
more preceding `append`s produced by the same row: the identifier is added to
the resume set only after all of the row's records are appended. -/
inductive ResumeLog : List (MainEvent ρ) → Prop where
  | nil : ResumeLog []
  | block (records : List ρ) (id : String) (rest : List (MainEvent ρ)) :
      records ≠ [] → ResumeLog rest →
      ResumeLog (records.map MainEvent.append ++ MainEvent.addId id :: rest)

namespace CAMEO3

/-- The mutable state of `main`'s row loop (src/CAMEO-3.py lines 596-667),
together with the full event log and the list of identifiers on whose behalf
remote classification calls were issued (one entry per round trip). -/
structure MainState where
  output : Option (CsvFile OutputRecord)
  processed_ids : List String
  log : List (MainEvent OutputRecord)
  callLog : List String
  deriving DecidableEq, Repr

/-- One iteration of the row loop (src/CAMEO-3.py lines 602-667): skip on
empty content, skip identifiers already processed, otherwise run both
classification tasks, append the row's records, and only then add the
identifier to `processed_ids`. -/
def step (oracle : Nat → RowOracle) (st : MainState) (entry : Nat × InputRow) :
    MainState :=
  let content := pyStrip entry.2.Content
  let news_id := pyStrip entry.2.NewsID
  if content = "" then st
  else if st.processed_ids.contains news_id then st
  else
    let orc := oracle entry.1
    let cameo_data := get_cameo_events_with_llm orc.cameoApi orc.cameoParse
    let summary := get_summary_with_llm orc.summaryApi
    let records := rowRecords news_id entry.2 cameo_data summary
    { output := records.foldl append_record st.output
      processed_ids := st.processed_ids ++ [news_id]
      log := st.log ++ records.map MainEvent.append ++ [MainEvent.addId news_id]
      callLog := st.callLog ++ List.replicate (rowCallCount orc) news_id }

/-- `main` (src/CAMEO-3.py lines 590-670): raise `FileNotFoundError` when the
input table is missing, else create the output file if needed, rebuild the
resume set from its `NewsID` column, and fold the row loop over the
enumerated input rows.  `oracle idx` supplies the remote outcomes for row
`idx`. -/
def main (inputExists : Bool) (df_input : List InputRow)
    (outputFile : Option (CsvFile OutputRecord)) (oracle : Nat → RowOracle) :
    Except String MainState :=
  if inputExists = false then Except.error "Missing CSV"
  else
    let out1 := ensure_output_csv outputFile
    let df_existing := load_existing_results out1
    Except.ok (df_input.enum.foldl (step oracle)
      { output := out1
        processed_ids := df_existing.map (fun r => r.NewsID)
        log := []
        callLog := [] })

/-- The whole script run (src/CAMEO-3.py lines 25-31 and 673-674): the
module-level credential check `if not OPENAI_API_KEY: raise ValueError`
precedes `main()`.  Returns the run outcome, the final state of the output
file, and the classification-call log; on an abort the output file is the
untouched initial state and the call log is empty. -/
def run (apiKey : Option String) (inputExists : Bool) (df_input : List InputRow)
    (outputFile : Option (CsvFile OutputRecord)) (oracle : Nat → RowOracle) :
    Except String MainState × Option (CsvFile OutputRecord) × List String :=
  if apiKey.getD "" = "" then
    (Except.error "OPENAI_API_KEY environment variable missing.", outputFile, [])
  else
    match main inputExists df_input outputFile oracle with
    | Except.error e => (Except.error e, outputFile, [])
    | Except.ok st => (Except.ok st, st.output, st.callLog)

/-- The `NewsID` column of the output file, from which the resume set is
rebuilt (`set(df_existing.get("NewsID", []).astype(str))`,
src/CAMEO-3.py line 598). -/
def newsIds (file : Option (CsvFile OutputRecord)) : List String :=
  (load_existing_results file).map (fun r => r.NewsID)

end CAMEO3

/-! ## Filter-3.2.py -/

namespace Filter32

/-- One row of the input table as accessed by src/Filter-3.2.py lines 114-128:
`Title` and `Content` stringified with default `""`, `NewsID` defaulting to
the positional index when the column is absent. -/
structure InputRow where
  NewsID : Option String
  Date : String
  Title : String
  Content : String
  deriving DecidableEq, Repr

/-- The parsed JSON reply of `check_cameo_relevance`
(`result.get("is_relevant", False)`, `result.get("reason", ...)`,
src/Filter-3.2.py line 85-86). -/
structure RelevanceReply where
  is_relevant : Option Bool
  reason : Option String
  deriving DecidableEq, Repr

/-- `check_cameo_relevance` (src/Filter-3.2.py lines 31-89): one chat call
(no retry wrapper); any exception is converted to
`(False, "LLM Error: " + str(e))`. -/
def check_cameo_relevance (resp : Except String RelevanceReply) : Bool × String :=
  match resp with
  | Except.ok result =>
      (result.is_relevant.getD false, result.reason.getD "No reason provided")
  | Except.error e => (false, "LLM Error: " ++ e)

/-- One row of the results table built in src/Filter-3.2.py lines 122-129. -/
structure ResultRecord where
  NewsID : String
  Date : String
  Title : String
  Is_Relevant : Bool
  Reason_English : String
  Content_Snippet : String
  deriving DecidableEq, Repr

/-- Build the result row for one input row (src/Filter-3.2.py lines 122-129). -/
def mkResult (index : Nat) (row : InputRow) (verdict : Bool × String) : ResultRecord :=
  { NewsID := row.NewsID.getD (toString index)
    Date := row.Date
    Title := row.Title
    Is_Relevant := verdict.1
    Reason_English := verdict.2
    Content_Snippet := pyTake row.Content 150 }

/-- `main` (src/Filter-3.2.py lines 94-148): return early if the input file is
missing; otherwise call `check_cameo_relevance` for **every** row (there is no
resume set and no skip), then write the fresh results table over
`OUTPUT_CSV_PATH` (`to_csv` in default write mode).  Returns the final output
state and the identifier of every row for which a classification call was
issued. -/
def main (inputExists : Bool) (df : List InputRow)
    (existingOutput : Option (List ResultRecord))
    (oracle : Nat → Except String RelevanceReply) :
    Option (List ResultRecord) × List String :=
  if inputExists = false then (existingOutput, [])
  else
    ( some (df.enum.map (fun q => mkResult q.1 q.2 (check_cameo_relevance (oracle q.1)))),
      df.enum.map (fun q => q.2.NewsID.getD (toString q.1)) )

end Filter32

/-! ## Societal_sentiment.py -/

namespace Societal

/-- One row of `ThemarkerHebrew.csv` as accessed by
src/Societal_sentiment.py (`row.get(column, "")` stringified). -/
structure InputRow where
  NewsID : String
  Content : String
  Source : String
  Date : String
  Title : String
  deriving DecidableEq, Repr

/-- The dict returned by `get_societal_sentiment_with_llm`
(src/Societal_sentiment.py lines 99-158); each field holds the CSV-cell
rendering of the corresponding key.  The source function catches every
exception and always returns a dict with all five keys, so it is modeled as an
opaque total per-row value supplied by the oracle. -/
structure SentimentResult where
  sentiment_score : String
  sentiment_label : String
  acting_group : String
  description : String
  evidence : String
  deriving DecidableEq, Repr

/-- One row of `Societal_Sentiment_Israel_OpenAI.csv`
(`OUTPUT_COLUMNS`, src/Societal_sentiment.py lines 171-178). -/
structure Record where
  NewsID : String
  Source : String
  Date : String
  Title : String
  summary : String
  societal_sentiment_score : String
  societal_sentiment_label : String
  societal_acting_group : String
  societal_description : String
  societal_evidence : String
  deriving DecidableEq, Repr

/-- Per-row outcomes of the two classifier tasks.  Both source functions
(`get_societal_sentiment_with_llm`, `get_summary_with_llm`) convert every
failure into a returned value, so their results are total. -/
structure RowOracle where
  sentiment : SentimentResult
  summary : String

/-- The record built for one processed row
(src/Societal_sentiment.py lines 215-226). -/
def mkRecord (news_id : String) (row : InputRow) (orc : RowOracle) : Record :=
  { NewsID := news_id
    Source := row.Source
    Date := row.Date
    Title := row.Title
    summary := orc.summary
    societal_sentiment_score := orc.sentiment.sentiment_score
    societal_sentiment_label := orc.sentiment.sentiment_label
    societal_acting_group := orc.sentiment.acting_group
    societal_description := orc.sentiment.description
    societal_evidence := orc.sentiment.evidence }

/-- Loop state of src/Societal_sentiment.py `main`. -/
structure MainState where
  output : Option (CsvFile Record)
  processed_ids : List String
  log : List (MainEvent Record)
  deriving DecidableEq, Repr

/-- One iteration of the row loop (src/Societal_sentiment.py lines 200-234):
`if not news_id or not content or news_id in processed_ids: continue`;
otherwise build the record, append it with `header=False`, and then add the
identifier to `processed_ids`. -/
def step (oracle : Nat → RowOracle) (st : MainState) (entry : Nat × InputRow) :
    MainState :=
  let news_id := pyStrip entry.2.NewsID
  let content := pyStrip entry.2.Content
  if news_id = "" ∨ content = "" ∨ st.processed_ids.contains news_id then st
  else
    let record := mkRecord news_id entry.2 (oracle entry.1)
    { output := append_row_no_header st.output record
      processed_ids := st.processed_ids ++ [news_id]
      log := st.log ++ [MainEvent.append record, MainEvent.addId news_id] }

/-- `main` (src/Societal_sentiment.py lines 181-236): raise if the input table
is missing, create the output file (with header) if needed, rebuild the resume
set from its `NewsID` column, and fold the row loop over the enumerated input
rows. -/
def main (inputExists : Bool) (df_input : List InputRow)
    (outputFile : Option (CsvFile Record)) (oracle : Nat → RowOracle) :
    Except String MainState :=
  if inputExists = false then Except.error "Missing CSV"
  else
    let out1 := ensure_output_csv outputFile
    let df_existing := load_existing_results out1
    Except.ok (df_input.enum.foldl (step oracle)
      { output := out1
        processed_ids := df_existing.map (fun r => r.NewsID)
        log := [] })

end Societal

/-! ## Loop lemmas -/

/-- Resume-shaped logs are closed under concatenation. -/
theorem ResumeLog_append {a b : List (MainEvent ρ)} (ha : ResumeLog a)
    (hb : ResumeLog b) : ResumeLog (a ++ b) := by
  induction ha with
  | nil => simpa using hb
  | block records id rest hne _ ih =>
    rw [List.append_assoc, List.cons_append]
    exact ResumeLog.block records id (rest ++ b) hne ih

/-- Folding `append_record` over an existing file appends the records in
order and leaves the header count unchanged. -/
theorem foldl_append_record_some (records : List ρ) :
    ∀ f : CsvFile ρ, records.foldl append_record (some f)
      = some { headerCount := f.headerCount, rows := f.rows ++ records } := by
  induction records with
  | nil => intro f; simp
  | cons r rs ih =>
    intro f
    rw [List.foldl_cons,
      show append_record (some f) r
        = some { headerCount := f.headerCount, rows := f.rows ++ [r] } from rfl, ih]
    simp

/-- Appending records never destroys the file. -/
theorem applyLog_isSome (evs : List (MainEvent ρ)) :
    ∀ f : CsvFile ρ, ∃ g, applyLog (some f) evs = some g := by
  induction evs with
  | nil => intro f; exact ⟨f, rfl⟩
  | cons e rest ih =>
    intro f
    cases e with
    | append r => exact ih { headerCount := f.headerCount, rows := f.rows ++ [r] }
    | addId id => exact ih f

/-- `ensure_output_csv` always yields an existing file. -/
theorem ensure_isSome (file : Option (CsvFile ρ)) :
    ∃ f, ensure_output_csv file = some f := by
  cases file with
  | none => exact ⟨_, rfl⟩
  | some f => exact ⟨f, rfl⟩

namespace CAMEO3

/-- A processed row appends at least one record
(the zero-events case still writes the blank record). -/
theorem rowRecords_ne_nil (news_id : String) (row : InputRow) (d : CameoData)
    (s : String) : rowRecords news_id row d s ≠ [] := by
  rcases hd : d.events with _ | ⟨e, es⟩ <;> simp [rowRecords, hd]

/-- Every record a row appends carries that row's identifier. -/
theorem rowRecords_newsID (news_id : String) (row : InputRow) (d : CameoData)
    (s : String) : ∀ rec ∈ rowRecords news_id row d s, rec.NewsID = news_id := by
  intro rec hrec
  unfold rowRecords at hrec
  by_cases hd : d.events.isEmpty
  · rw [if_pos hd] at hrec
    simp only [List.mem_singleton] at hrec
    subst hrec
    rfl
  · rw [if_neg hd] at hrec
    simp only [List.mem_map] at hrec
    obtain ⟨ev, _, rfl⟩ := hrec
    rfl

/-- Each loop iteration either leaves the state unchanged (a skipped row) or
processes the row: it appends that row's records and only afterwards adds the
row's identifier (which was not yet in the resume set) to `processed_ids`. -/
theorem step_cases (oracle : Nat → RowOracle) (st : MainState)
    (entry : Nat × InputRow) :
    step oracle st entry = st ∨
    ∃ records id, records ≠ [] ∧ (∀ rec ∈ records, rec.NewsID = id) ∧
      st.processed_ids.contains id = false ∧
      step oracle st entry =
        { output := records.foldl append_record st.output
          processed_ids := st.processed_ids ++ [id]
          log := st.log ++ records.map MainEvent.append ++ [MainEvent.addId id]
          callLog := st.callLog ++ List.replicate (rowCallCount (oracle entry.1)) id } := by
  simp only [step]
  split
  next => left; rfl
  next =>
    split
    next => left; rfl
    next hp =>
      right
      exact ⟨_, _, rowRecords_ne_nil _ _ _ _, rowRecords_newsID _ _ _ _,
        by simpa using hp, rfl⟩

/-- A row with nonempty content has its identifier in `processed_ids` right
after its own iteration. -/
theorem step_mem_processed (oracle : Nat → RowOracle) (st : MainState)
    (entry : Nat × InputRow) (h : pyStrip entry.2.Content ≠ "") :
    pyStrip entry.2.NewsID ∈ (step oracle st entry).processed_ids := by
  simp only [step]
  split
  next h0 => exact absurd h0 h
  next =>
    split
    next hp => simpa using hp
    next => simp

/-- `processed_ids` only grows during the loop. -/
theorem loop_processed_prefix (oracle : Nat → RowOracle) (l : List (Nat × InputRow)) :
    ∀ st : MainState, ∃ Δ,
      (l.foldl (step oracle) st).processed_ids = st.processed_ids ++ Δ := by
  induction l with
  | nil => intro st; exact ⟨[], by simp⟩
  | cons a l ih =>
    intro st
    obtain ⟨Δ, hΔ⟩ := ih (step oracle st a)
    rcases step_cases oracle st a with h | ⟨records, id, _, _, _, h⟩
    · rw [List.foldl_cons, hΔ, h]
      exact ⟨Δ, rfl⟩
    · rw [List.foldl_cons, hΔ, h]
      exact ⟨[id] ++ Δ, by simp⟩

/-- Membership in `processed_ids` is stable under the loop. -/
theorem loop_processed_mono (oracle : Nat → RowOracle) (l : List (Nat × InputRow))
    (st : MainState) (id : String) (h : id ∈ st.processed_ids) :
    id ∈ (l.foldl (step oracle) st).processed_ids := by
  obtain ⟨Δ, hΔ⟩ := loop_processed_prefix oracle l st
  rw [hΔ]
  exact List.mem_append_left _ h

/-- No classification call is ever logged for an identifier that is already in
`processed_ids` when the loop starts. -/
theorem loop_callLog_avoids_processed (oracle : Nat → RowOracle)
    (l : List (Nat × InputRow)) :
    ∀ (st : MainState) (id : String), id ∈ st.processed_ids → id ∉ st.callLog →
      id ∉ (l.foldl (step oracle) st).callLog := by
  induction l with
  | nil => intro st id _ h2; simpa using h2
  | cons a l ih =>
    intro st id h1 h2
    rw [List.foldl_cons]
    rcases step_cases oracle st a with h | ⟨records, rid, hne, hrid, hcont, h⟩
    · rw [h]; exact ih st id h1 h2
    · rw [h]
      apply ih _ id
      · simpa using Or.inl h1
      · have hne2 : id ≠ rid := by
          intro he
          subst he
          have hmem : st.processed_ids.contains id = true := by simpa using h1
          rw [hmem] at hcont
          cases hcont
        simp only [List.mem_append, List.mem_replicate]
        rintro (hA | ⟨-, hB⟩)
        · exact h2 hA
        · exact hne2 hB

/-- Every row with nonempty content ends the loop with its identifier in
`processed_ids`. -/
theorem loop_content_processed (oracle : Nat → RowOracle)
    (l : List (Nat × InputRow)) :
    ∀ (st : MainState), ∀ q ∈ l, pyStrip q.2.Content ≠ "" →
      pyStrip q.2.NewsID ∈ (l.foldl (step oracle) st).processed_ids := by
  induction l with
  | nil => intro st q hq; cases hq
  | cons a l ih =>
    intro st q hq hc
    rw [List.foldl_cons]
    rcases List.mem_cons.mp hq with rfl | hq'
    · exact loop_processed_mono oracle l _ _ (step_mem_processed oracle st q hc)
    · exact ih (step oracle st a) q hq' hc

/-- The `NewsID` column after one append. -/
theorem newsIds_append_record (file : Option (CsvFile OutputRecord))
    (r : OutputRecord) :
    newsIds (append_record file r) = newsIds file ++ [r.NewsID] := by
  cases file <;> simp [newsIds, append_record, load_existing_results]

/-- The `NewsID` column after appending a batch of records. -/
theorem newsIds_foldl_append (records : List OutputRecord) :
    ∀ file, newsIds (records.foldl append_record file)
      = newsIds file ++ records.map (fun r => r.NewsID) := by
  induction records with
  | nil => intro file; simp
  | cons r rs ih =>
    intro file
    rw [List.foldl_cons, ih, newsIds_append_record]
    simp

/-- Invariant: every identifier in `processed_ids` has at least one record in
the output table; preserved because records are appended before the
identifier is added. -/
theorem loop_processed_subset_newsIds (oracle : Nat → RowOracle)
    (l : List (Nat × InputRow)) :
    ∀ st : MainState, (∀ id ∈ st.processed_ids, id ∈ newsIds st.output) →
      ∀ id ∈ (l.foldl (step oracle) st).processed_ids,
        id ∈ newsIds (l.foldl (step oracle) st).output := by
  induction l with
  | nil => intro st h; simpa using h
  | cons a l ih =>
    intro st h
    rw [List.foldl_cons]
    apply ih
    rcases step_cases oracle st a with hs | ⟨records, rid, hne, hrid, _, hs⟩
    · rw [hs]; exact h
    · rw [hs]
      intro id hid
      have hrows : newsIds (records.foldl append_record st.output)
          = newsIds st.output ++ records.map (fun r => r.NewsID) :=
        newsIds_foldl_append records st.output
      simp only [List.mem_append, List.mem_singleton] at hid
      show id ∈ newsIds (records.foldl append_record st.output)
      rw [hrows]
      rcases hid with hid | rfl
      · exact List.mem_append_left _ (h id hid)
      · obtain ⟨rec, hrec⟩ := List.exists_mem_of_ne_nil records hne
        refine List.mem_append_right _ ?_
        exact List.mem_map.mpr ⟨rec, hrec, hrid rec hrec⟩

/-- The loop only appends to the log, in resume-shaped blocks. -/
theorem loop_log_resume (oracle : Nat → RowOracle) (l : List (Nat × InputRow)) :
    ∀ st : MainState, ∃ Δ,
      (l.foldl (step oracle) st).log = st.log ++ Δ ∧ ResumeLog Δ := by
  induction l with
  | nil => intro st; exact ⟨[], by simp, ResumeLog.nil⟩
  | cons a l ih =>
    intro st
    rw [List.foldl_cons]
    obtain ⟨Δ, hΔ, hres⟩ := ih (step oracle st a)
    rcases step_cases oracle st a with hs | ⟨records, rid, hne, _, _, hs⟩
    · rw [hs] at hΔ ⊢
      exact ⟨Δ, hΔ, hres⟩
    · rw [hs] at hΔ ⊢
      refine ⟨records.map MainEvent.append ++ MainEvent.addId rid :: Δ, ?_,
        ResumeLog.block records rid Δ hne hres⟩
      rw [hΔ]
      simp

/-- The loop extends the output file, never rewrites it: the rows present at
loop start remain, in place, a prefix of the final rows, and the header count
is untouched. -/
theorem loop_output_extends (oracle : Nat → RowOracle) (l : List (Nat × InputRow)) :
    ∀ (st : MainState) (f : CsvFile OutputRecord), st.output = some f →
      ∃ more, (l.foldl (step oracle) st).output
        = some { headerCount := f.headerCount, rows := f.rows ++ more } := by
  induction l with
  | nil =>
    intro st f h
    refine ⟨[], ?_⟩
    rw [List.foldl_nil, h]
    simp
  | cons a l ih =>
    intro st f h
    rw [List.foldl_cons]
    rcases step_cases oracle st a with hs | ⟨records, rid, _, _, _, hs⟩
    · rw [hs]; exact ih st f h
    · have hout : (step oracle st a).output
          = some { headerCount := f.headerCount, rows := f.rows ++ records } := by
        rw [hs]
        show records.foldl append_record st.output = _
        rw [h, foldl_append_record_some]
      obtain ⟨more, hmore⟩ := ih (step oracle st a) _ hout
      refine ⟨records ++ more, ?_⟩
      rw [hmore]
      simp

/-- `main` on an existing input table never raises: it returns the folded
state. -/
theorem main_true_eq (df_input : List InputRow)
    (outputFile : Option (CsvFile OutputRecord)) (oracle : Nat → RowOracle) :
    main true df_input outputFile oracle = Except.ok (df_input.enum.foldl (step oracle)
      { output := ensure_output_csv outputFile
        processed_ids := (load_existing_results (ensure_output_csv outputFile)).map
          (fun r => r.NewsID)
        log := []
        callLog := [] }) := rfl

end CAMEO3

namespace Societal

/-- Each Societal_sentiment loop iteration either skips the row or appends its
single record and then adds its identifier. -/
theorem sent_step_cases (oracle : Nat → RowOracle) (st : MainState)
    (entry : Nat × InputRow) :
    step oracle st entry = st ∨
    ∃ record id, step oracle st entry =
      { output := append_row_no_header st.output record
        processed_ids := st.processed_ids ++ [id]
        log := st.log ++ [MainEvent.append record, MainEvent.addId id] } := by
  simp only [step]
  split
  next => left; rfl
  next => right; exact ⟨_, _, rfl⟩

/-- The Societal_sentiment loop appends to the log in resume-shaped blocks of
one record each. -/
theorem sent_loop_log_resume (oracle : Nat → RowOracle) (l : List (Nat × InputRow)) :
    ∀ st : MainState, ∃ Δ,
      (l.foldl (step oracle) st).log = st.log ++ Δ ∧ ResumeLog Δ := by
  induction l with
  | nil => intro st; exact ⟨[], by simp, ResumeLog.nil⟩
  | cons a l ih =>
    intro st
    rw [List.foldl_cons]
    obtain ⟨Δ, hΔ, hres⟩ := ih (step oracle st a)
    rcases sent_step_cases oracle st a with hs | ⟨record, rid, hs⟩
    · rw [hs] at hΔ ⊢
      exact ⟨Δ, hΔ, hres⟩
    · rw [hs] at hΔ ⊢
      refine ⟨[record].map MainEvent.append ++ MainEvent.addId rid :: Δ, ?_,
        ResumeLog.block [record] rid Δ (by simp) hres⟩
      rw [hΔ]
      simp

/-- `main` on an existing input table never raises. -/
theorem sent_main_true_eq (df_input : List InputRow)
    (outputFile : Option (CsvFile Record)) (oracle : Nat → RowOracle) :
    main true df_input outputFile oracle = Except.ok (df_input.enum.foldl (step oracle)
      { output := ensure_output_csv outputFile
        processed_ids := (load_existing_results (ensure_output_csv outputFile)).map
          (fun r => r.NewsID)
        log := [] }) := rfl

end Societal

/-! ## Claim theorems -/

/-- Header invariant for the CAMEO-3 sink: any operation sequence starting
from a nonexistent file yields a file with exactly one header line. -/
theorem applySinkOps_header (ops : List (SinkOp ρ)) :
    ∀ file : Option (CsvFile ρ),
      (file = none ∨ ∃ rows, file = some { headerCount := 1, rows := rows }) →
      ∀ f, applySinkOps file ops = some f → f.headerCount = 1 := by
  induction ops with
  | nil =>
    intro file hinv f hf
    simp only [applySinkOps] at hf
    rcases hinv with rfl | ⟨rows, rfl⟩
    · exact Option.noConfusion hf
    · obtain rfl := Option.some.inj hf
      rfl
  | cons op rest ih =>
    intro file hinv f hf
    cases op with
    | ensure =>
      simp only [applySinkOps] at hf
      refine ih (ensure_output_csv file) ?_ f hf
      rcases hinv with rfl | ⟨rows, rfl⟩
      · exact Or.inr ⟨[], rfl⟩
      · exact Or.inr ⟨rows, rfl⟩
    | append r =>
      simp only [applySinkOps] at hf
      refine ih (append_record file r) ?_ f hf
      rcases hinv with rfl | ⟨rows, rfl⟩
      · exact Or.inr ⟨[r], rfl⟩
      · exact Or.inr ⟨rows ++ [r], rfl⟩

/-- Header invariant for the Societal_sentiment sink: once the file exists
with one header line, `header=False` appends never add another. -/
theorem applySinkOpsNoHeader_header (ops : List (SinkOp ρ)) :
    ∀ file : Option (CsvFile ρ),
      (∃ rows, file = some { headerCount := 1, rows := rows }) →
      ∀ f, applySinkOpsNoHeader file ops = some f → f.headerCount = 1 := by
  induction ops with
  | nil =>
    intro file hinv f hf
    simp only [applySinkOpsNoHeader] at hf
    obtain ⟨rows, rfl⟩ := hinv
    obtain rfl := Option.some.inj hf
    rfl
  | cons op rest ih =>
    intro file hinv f hf
    obtain ⟨rows, rfl⟩ := hinv
    cases op with
    | ensure =>
      simp only [applySinkOpsNoHeader] at hf
      exact ih _ ⟨rows, rfl⟩ f hf
    | append r =>
      simp only [applySinkOpsNoHeader] at hf
      exact ih _ ⟨rows ++ [r], rfl⟩ f hf

/-- **C6**: across any number of runs and appends the output table holds the
header exactly once.  For the CAMEO-3 sink (`ensure_output_csv` /
`append_record`, src/CAMEO-3.py lines 564-586) this holds for every operation
sequence from the file's creation on; for the Societal_sentiment sink, whose
appends pass `header=False` (src/Societal_sentiment.py lines 228-230), it
holds from the moment the file is created with its single header line
(src/Societal_sentiment.py lines 192-193). -/
theorem header_written_exactly_once :
    (∀ (ops : List (SinkOp CAMEO3.OutputRecord)) (f : CsvFile CAMEO3.OutputRecord),
       applySinkOps none ops = some f → f.headerCount = 1) ∧
    (∀ (ops : List (SinkOp Societal.Record)) (rows0 : List Societal.Record)
       (f : CsvFile Societal.Record),
       applySinkOpsNoHeader (some { headerCount := 1, rows := rows0 }) ops = some f →
       f.headerCount = 1) :=
  ⟨fun ops f hf => applySinkOps_header ops none (Or.inl rfl) f hf,
   fun ops rows0 f hf => applySinkOpsNoHeader_header ops _ ⟨rows0, rfl⟩ f hf⟩

/-- Witness for C6: two runs, each an `ensure` followed by an append, starting
from no file, end with exactly one header line. -/
theorem header_written_exactly_once_witness :
    applySinkOps (none : Option (CsvFile CAMEO3.OutputRecord))
        [SinkOp.ensure,
         SinkOp.append ⟨"1", "s", "d", "t", "m", "1", "a", "b", "13", "138", "x", "q", "0.9"⟩,
         SinkOp.ensure,
         SinkOp.append ⟨"2", "s", "d", "t", "m", "1", "a", "b", "13", "138", "x", "q", "0.9"⟩]
      = some { headerCount := 1, rows :=
          [⟨"1", "s", "d", "t", "m", "1", "a", "b", "13", "138", "x", "q", "0.9"⟩,
           ⟨"2", "s", "d", "t", "m", "1", "a", "b", "13", "138", "x", "q", "0.9"⟩] } ∧
    ({ headerCount := 1, rows :=
          [⟨"1", "s", "d", "t", "m", "1", "a", "b", "13", "138", "x", "q", "0.9"⟩,
           ⟨"2", "s", "d", "t", "m", "1", "a", "b", "13", "138", "x", "q", "0.9"⟩] } :
        CsvFile CAMEO3.OutputRecord).headerCount = 1 :=
  ⟨rfl, header_written_exactly_once.1
    [SinkOp.ensure,
     SinkOp.append ⟨"1", "s", "d", "t", "m", "1", "a", "b", "13", "138", "x", "q", "0.9"⟩,
     SinkOp.ensure,
     SinkOp.append ⟨"2", "s", "d", "t", "m", "1", "a", "b", "13", "138", "x", "q", "0.9"⟩]
    { headerCount := 1, rows :=
        [⟨"1", "s", "d", "t", "m", "1", "a", "b", "13", "138", "x", "q", "0.9"⟩,
         ⟨"2", "s", "d", "t", "m", "1", "a", "b", "13", "138", "x", "q", "0.9"⟩] }
    rfl⟩

/-- **C8**: a missing required credential (the module-level check,
src/CAMEO-3.py lines 25-28) or a missing input file (src/CAMEO-3.py lines
591-592, checked before `ensure_output_csv`) aborts the run with an error:
the output file keeps its initial state — neither created nor modified — and
no classification call is issued. -/
theorem aborts_before_any_processing (apiKey : Option String) (inputExists : Bool)
    (df_input : List CAMEO3.InputRow) (outputFile : Option (CsvFile CAMEO3.OutputRecord))
    (oracle : Nat → CAMEO3.RowOracle)
    (h : apiKey.getD "" = "" ∨ inputExists = false) :
    ∃ msg, CAMEO3.run apiKey inputExists df_input outputFile oracle
      = (Except.error msg, outputFile, []) := by
  by_cases hk : apiKey.getD "" = ""
  · exact ⟨"OPENAI_API_KEY environment variable missing.", by simp [CAMEO3.run, hk]⟩
  · rcases h with h | h
    · exact absurd h hk
    · refine ⟨"Missing CSV", ?_⟩
      simp [CAMEO3.run, CAMEO3.main, hk, h]

/-- Witness for C8: no credential, and separately a missing input file. -/
theorem aborts_before_any_processing_witness :
    ((Option.getD (none : Option String) "" = "") ∨ (true = false)) ∧
    ∃ msg, CAMEO3.run none true
        [⟨"1", "text", "s", "d", "t"⟩]
        (some { headerCount := 1, rows := [] })
        (fun _ => ⟨fun _ => Except.ok "", fun _ => Except.ok ⟨[], none⟩, fun _ => Except.ok ""⟩)
      = (Except.error msg, some { headerCount := 1, rows := [] }, []) :=
  ⟨Or.inl rfl,
   aborts_before_any_processing none true _ _ _ (Or.inl rfl)⟩

/-- **C1** counterexample: src/Filter-3.2.py has no resume logic.  With an
identifier `42` already present in the existing output table, rerunning the
script issues one classification call (not zero) for that identifier and
replaces the existing output rows with freshly computed ones. -/
theorem filter32_reclassifies_and_overwrites :
    (Filter32.main true
        [{ NewsID := some "42", Date := "2009-01-30", Title := "t", Content := "text" }]
        (some [{ NewsID := "42", Date := "2009-01-30", Title := "t", Is_Relevant := true,
                 Reason_English := "r", Content_Snippet := "text" }])
        (fun _ => Except.error "boom")).2.count "42" = 1 ∧
    (Filter32.main true
        [{ NewsID := some "42", Date := "2009-01-30", Title := "t", Content := "text" }]
        (some [{ NewsID := "42", Date := "2009-01-30", Title := "t", Is_Relevant := true,
                 Reason_English := "r", Content_Snippet := "text" }])
        (fun _ => Except.error "boom")).1
      = some [{ NewsID := "42", Date := "2009-01-30", Title := "t", Is_Relevant := false,
                Reason_English := "LLM Error: boom", Content_Snippet := "text" }] ∧
    (some [{ NewsID := "42", Date := "2009-01-30", Title := "t", Is_Relevant := false,
             Reason_English := "LLM Error: boom", Content_Snippet := "text" }] :
        Option (List Filter32.ResultRecord))
      ≠ some [{ NewsID := "42", Date := "2009-01-30", Title := "t", Is_Relevant := true,
                Reason_English := "r", Content_Snippet := "text" }] := by
  refine ⟨rfl, rfl, ?_⟩
  decide

/-- **C1** amended: the resume guarantee holds for the scripts that implement
it (src/CAMEO-3.py, src/CAMEOcode_Hurriyet_1.py, src/Societal_sentiment.py),
formalized here for CAMEO-3: every identifier present in the output table when
a run starts gets zero classification calls during the run, and the run only
appends — the pre-existing rows stay, unchanged and in place, a prefix of the
final table. -/
theorem resume_skips_and_preserves_existing_rows
    (df_input : List CAMEO3.InputRow) (outputFile : Option (CsvFile CAMEO3.OutputRecord))
    (oracle : Nat → CAMEO3.RowOracle) (st : CAMEO3.MainState) (id : String)
    (h : CAMEO3.main true df_input outputFile oracle = Except.ok st)
    (hid : id ∈ CAMEO3.newsIds (ensure_output_csv outputFile)) :
    id ∉ st.callLog ∧
    ∃ f, ensure_output_csv outputFile = some f ∧
      ∃ more, st.output = some { headerCount := f.headerCount, rows := f.rows ++ more } := by
  rw [CAMEO3.main_true_eq] at h
  obtain rfl := Except.ok.inj h
  refine ⟨CAMEO3.loop_callLog_avoids_processed oracle _ _ id hid (by simp), ?_⟩
  obtain ⟨f, hf⟩ := ensure_isSome outputFile
  obtain ⟨more, hmore⟩ := CAMEO3.loop_output_extends oracle df_input.enum
    { output := ensure_output_csv outputFile
      processed_ids := (load_existing_results (ensure_output_csv outputFile)).map
        (fun r => r.NewsID)
      log := []
      callLog := [] } f hf
  exact ⟨f, hf, more, hmore⟩

/-- Witness for C1's amended claim: identifier `42` is already in the output
table; the rerun issues no call for it and keeps the existing row in place. -/
theorem resume_skips_and_preserves_existing_rows_witness :
    "42" ∉ ([] : List String) ∧
    ∃ f, ensure_output_csv
        (some { headerCount := 1, rows :=
          [⟨"42", "s", "d", "t", "m", "1", "a", "b", "13", "138", "x", "q", "0.9"⟩] })
      = some f ∧
    ∃ more, (some { headerCount := 1, rows :=
          [⟨"42", "s", "d", "t", "m", "1", "a", "b", "13", "138", "x", "q", "0.9"⟩] } :
        Option (CsvFile CAMEO3.OutputRecord))
      = some { headerCount := f.headerCount, rows := f.rows ++ more } :=
  resume_skips_and_preserves_existing_rows
    [⟨"42", "text", "s", "d", "t"⟩]
    (some { headerCount := 1, rows :=
      [⟨"42", "s", "d", "t", "m", "1", "a", "b", "13", "138", "x", "q", "0.9"⟩] })
    (fun _ => ⟨fun _ => Except.ok "", fun _ => Except.ok ⟨[], none⟩, fun _ => Except.ok ""⟩)
    { output := some { headerCount := 1, rows :=
        [⟨"42", "s", "d", "t", "m", "1", "a", "b", "13", "138", "x", "q", "0.9"⟩] }
      processed_ids := ["42"]
      log := []
      callLog := [] }
    "42" rfl (by decide)

/-- The events-task classifier converts a run of all-failing attempts into the
empty-events sentinel carrying the exception of the final attempt. -/
theorem get_cameo_sentinel_of_all_fail (api : Nat → Except String String)
    (parse : String → Except String CAMEO3.CameoData)
    (hfail : ∀ k, 1 ≤ k → k ≤ 4 → ∃ e, api k = Except.error e) :
    ∃ exc, CAMEO3.get_cameo_events_with_llm api parse
      = { events := [], error := some exc } := by
  obtain ⟨e4, he4⟩ := hfail 4 (by omega) (by omega)
  have hres : (CAMEO3.run_chat_completion api).result = RetryResult.raised e4 := by
    show (callWithRetriesAux api RETRY_BACKOFF_SECONDS 1 MAX_RETRIES).result = _
    exact (callWithRetriesAux_all_fail api RETRY_BACKOFF_SECONDS 4 1 e4 (by omega)
      (fun k hk1 hk2 => hfail k hk1 (by omega)) he4).2
  refine ⟨e4, ?_⟩
  unfold CAMEO3.get_cameo_events_with_llm CAMEO3.cameoTryBody
  rw [hres]

/-- The summary-task classifier converts a run of all-failing attempts into an
`Error: `-prefixed text. -/
theorem get_summary_sentinel_of_all_fail (api : Nat → Except String String)
    (hfail : ∀ k, 1 ≤ k → k ≤ 4 → ∃ e, api k = Except.error e) :
    ∃ exc, CAMEO3.get_summary_with_llm api = "Error: " ++ exc := by
  obtain ⟨e4, he4⟩ := hfail 4 (by omega) (by omega)
  have hres : (CAMEO3.run_chat_completion api).result = RetryResult.raised e4 := by
    show (callWithRetriesAux api RETRY_BACKOFF_SECONDS 1 MAX_RETRIES).result = _
    exact (callWithRetriesAux_all_fail api RETRY_BACKOFF_SECONDS 4 1 e4 (by omega)
      (fun k hk1 hk2 => hfail k hk1 (by omega)) he4).2
  refine ⟨e4, ?_⟩
  unfold CAMEO3.get_summary_with_llm
  rw [hres]

/-- **C9**: a row whose content strips to the empty string is skipped before
the resume-set check: no classification call, no appended record, no addition
to `processed_ids` — the loop state is completely unchanged, so the row is
looked at again on every rerun and never contributes an output record
(src/CAMEO-3.py lines 602-611; src/Societal_sentiment.py lines 200-205).  In
contrast a row with nonempty content whose classification calls all fail
still appends one (blank) record and adds its identifier. -/
theorem empty_content_row_leaves_no_trace
    (oracle : Nat → CAMEO3.RowOracle) (idx idx' : Nat) (st : CAMEO3.MainState)
    (row row' : CAMEO3.InputRow)
    (h : pyStrip row.Content = "")
    (h' : pyStrip row'.Content ≠ "")
    (hp : st.processed_ids.contains (pyStrip row'.NewsID) = false)
    (hfail : ∀ k, 1 ≤ k → k ≤ MAX_RETRIES → ∃ e, (oracle idx').cameoApi k = Except.error e)
    (orc2 : Nat → Societal.RowOracle) (st2 : Societal.MainState)
    (row2 : Societal.InputRow) (j : Nat) (h2 : pyStrip row2.Content = "") :
    CAMEO3.step oracle st (idx, row) = st ∧
    (∃ s, (CAMEO3.step oracle st (idx', row')).log
        = st.log ++ [MainEvent.append (CAMEO3.blankRecord (pyStrip row'.NewsID) row' s),
                     MainEvent.addId (pyStrip row'.NewsID)]) ∧
    Societal.step orc2 st2 (j, row2) = st2 := by
  refine ⟨by simp [CAMEO3.step, h], ?_, by simp [Societal.step, h2]⟩
  obtain ⟨exc, hcameo⟩ := get_cameo_sentinel_of_all_fail (oracle idx').cameoApi
    (oracle idx').cameoParse (fun k hk1 hk2 => hfail k hk1 (by simpa [MAX_RETRIES] using hk2))
  refine ⟨CAMEO3.get_summary_with_llm (oracle idx').summaryApi, ?_⟩
  simp only [CAMEO3.step]
  split
  next h0 => exact absurd h0 h'
  next =>
    split
    next hpc =>
      rw [hp] at hpc
      cases hpc
    next =>
      show st.log ++ (CAMEO3.rowRecords _ _ _ _).map MainEvent.append
          ++ [MainEvent.addId _] = _
      rw [hcameo]
      simp [CAMEO3.rowRecords]

/-- Witness for C9: a whitespace-only row leaves the state untouched; a
nonempty row with a failing classifier appends the blank record and its
identifier. -/
theorem empty_content_row_leaves_no_trace_witness :
    CAMEO3.step
        (fun _ => ⟨fun _ => Except.error "boom", fun _ => Except.ok ⟨[], none⟩,
                   fun _ => Except.error "boom"⟩)
        { output := some { headerCount := 1, rows := [] }
          processed_ids := []
          log := []
          callLog := [] }
        (0, ⟨"9", "   ", "s", "d", "t"⟩)
      = { output := some { headerCount := 1, rows := [] }
          processed_ids := []
          log := []
          callLog := [] } ∧
    (∃ s, (CAMEO3.step
        (fun _ => ⟨fun _ => Except.error "boom", fun _ => Except.ok ⟨[], none⟩,
                   fun _ => Except.error "boom"⟩)
        { output := some { headerCount := 1, rows := [] }
          processed_ids := []
          log := []
          callLog := [] }
        (1, ⟨"8", "text", "s", "d", "t"⟩)).log
      = [] ++ [MainEvent.append (CAMEO3.blankRecord (pyStrip "8") ⟨"8", "text", "s", "d", "t"⟩ s),
               MainEvent.addId (pyStrip "8")]) ∧
    Societal.step (fun _ => ⟨⟨"0", "", "", "", ""⟩, ""⟩)
        { output := some { headerCount := 1, rows := [] }
          processed_ids := []
          log := [] }
        (0, ⟨"1", "", "s", "d", "t"⟩)
      = { output := some { headerCount := 1, rows := [] }
          processed_ids := []
          log := [] } :=
  empty_content_row_leaves_no_trace
    (fun _ => ⟨fun _ => Except.error "boom", fun _ => Except.ok ⟨[], none⟩,
               fun _ => Except.error "boom"⟩)
    0 1
    { output := some { headerCount := 1, rows := [] }
      processed_ids := []
      log := []
      callLog := [] }
    ⟨"9", "   ", "s", "d", "t"⟩ ⟨"8", "text", "s", "d", "t"⟩
    rfl (by decide) rfl (fun k _ _ => ⟨"boom", rfl⟩)
    (fun _ => ⟨⟨"0", "", "", "", ""⟩, ""⟩)
    { output := some { headerCount := 1, rows := [] }
      processed_ids := []
      log := [] }
    ⟨"1", "", "s", "d", "t"⟩ 0 rfl

/-- **C4**: when every classification call raises, the run still completes
(`main` returns a final state, no uncaught exception), every row with
nonempty content still ends with its identifier in the resume set, and each
processed row contributes exactly one record — the blank error-sentinel
record — because `get_cameo_events_with_llm` converts the failure into the
empty-events sentinel and `get_summary_with_llm` into an `Error: ` text; the
classifier client never propagates an exception past its own boundary
(src/CAMEO-3.py lines 510-524, 528-542, 621-667). -/
theorem all_failures_still_complete
    (df_input : List CAMEO3.InputRow) (outputFile : Option (CsvFile CAMEO3.OutputRecord))
    (oracle : Nat → CAMEO3.RowOracle)
    (hfail : ∀ idx k, 1 ≤ k → k ≤ MAX_RETRIES →
      (∃ e, (oracle idx).cameoApi k = Except.error e) ∧
      (∃ e, (oracle idx).summaryApi k = Except.error e)) :
    (∃ st, CAMEO3.main true df_input outputFile oracle = Except.ok st ∧
       ∀ q ∈ df_input.enum, pyStrip q.2.Content ≠ "" →
         pyStrip q.2.NewsID ∈ st.processed_ids) ∧
    (∀ idx, ∃ exc1 exc2,
       CAMEO3.get_cameo_events_with_llm (oracle idx).cameoApi (oracle idx).cameoParse
         = { events := [], error := some exc1 } ∧
       CAMEO3.get_summary_with_llm (oracle idx).summaryApi = "Error: " ++ exc2 ∧
       ∀ (row : CAMEO3.InputRow) (news_id s : String),
         CAMEO3.rowRecords news_id row
           (CAMEO3.get_cameo_events_with_llm (oracle idx).cameoApi (oracle idx).cameoParse) s
           = [CAMEO3.blankRecord news_id row s]) := by
  constructor
  · refine ⟨_, CAMEO3.main_true_eq df_input outputFile oracle, ?_⟩
    intro q hq hc
    exact CAMEO3.loop_content_processed oracle df_input.enum _ q hq hc
  · intro idx
    obtain ⟨exc1, hc⟩ := get_cameo_sentinel_of_all_fail (oracle idx).cameoApi
      (oracle idx).cameoParse
      (fun k hk1 hk2 => (hfail idx k hk1 (by simpa [MAX_RETRIES] using hk2)).1)
    obtain ⟨exc2, hs⟩ := get_summary_sentinel_of_all_fail (oracle idx).summaryApi
      (fun k hk1 hk2 => (hfail idx k hk1 (by simpa [MAX_RETRIES] using hk2)).2)
    refine ⟨exc1, exc2, hc, hs, ?_⟩
    intro row news_id s
    rw [hc]
    simp [CAMEO3.rowRecords]

/-- Witness for C4: a one-row table with a classifier that fails every
attempt of both tasks. -/
theorem all_failures_still_complete_witness :
    (∃ st, CAMEO3.main true [⟨"7", "text", "s", "d", "t"⟩] none
        (fun _ => ⟨fun _ => Except.error "boom", fun _ => Except.ok ⟨[], none⟩,
                   fun _ => Except.error "boom"⟩) = Except.ok st ∧
       ∀ q ∈ ([⟨"7", "text", "s", "d", "t"⟩] : List CAMEO3.InputRow).enum,
         pyStrip q.2.Content ≠ "" → pyStrip q.2.NewsID ∈ st.processed_ids) ∧
    (∀ idx, ∃ exc1 exc2,
       CAMEO3.get_cameo_events_with_llm
           ((fun (_ : Nat) => (⟨fun _ => Except.error "boom", fun _ => Except.ok ⟨[], none⟩,
               fun _ => Except.error "boom"⟩ : CAMEO3.RowOracle)) idx).cameoApi
           ((fun (_ : Nat) => (⟨fun _ => Except.error "boom", fun _ => Except.ok ⟨[], none⟩,
               fun _ => Except.error "boom"⟩ : CAMEO3.RowOracle)) idx).cameoParse
         = { events := [], error := some exc1 } ∧
       CAMEO3.get_summary_with_llm
           ((fun (_ : Nat) => (⟨fun _ => Except.error "boom", fun _ => Except.ok ⟨[], none⟩,
               fun _ => Except.error "boom"⟩ : CAMEO3.RowOracle)) idx).summaryApi
         = "Error: " ++ exc2 ∧
       ∀ (row : CAMEO3.InputRow) (news_id s : String),
         CAMEO3.rowRecords news_id row
           (CAMEO3.get_cameo_events_with_llm
             ((fun (_ : Nat) => (⟨fun _ => Except.error "boom", fun _ => Except.ok ⟨[], none⟩,
                 fun _ => Except.error "boom"⟩ : CAMEO3.RowOracle)) idx).cameoApi
             ((fun (_ : Nat) => (⟨fun _ => Except.error "boom", fun _ => Except.ok ⟨[], none⟩,
                 fun _ => Except.error "boom"⟩ : CAMEO3.RowOracle)) idx).cameoParse) s
           = [CAMEO3.blankRecord news_id row s]) :=
  all_failures_still_complete [⟨"7", "text", "s", "d", "t"⟩] none
    (fun _ => ⟨fun _ => Except.error "boom", fun _ => Except.ok ⟨[], none⟩,
               fun _ => Except.error "boom"⟩)
    (fun _ _ _ _ => ⟨⟨"boom", rfl⟩, ⟨"boom", rfl⟩⟩)

/-- **C5**: a row's identifier enters `processed_ids` only after all of the
row's records (one blank record when there are zero detections) have been
appended — the event log of every run decomposes into blocks of one or more
appends closed by the `addId` (src/CAMEO-3.py lines 621-667, and likewise for
src/Societal_sentiment.py lines 209-231).  Consequently, restarting after a
kill that left the output file holding the first `p` logged appends:
reprocesses no row that already has a record in the file (in particular no
fully-completed row gets a second classification call), and still ends with
every nonempty-content row owning at least one record in the table, so the
interrupted row is never silently dropped. -/
theorem id_added_only_after_all_records_appended
    (df_input : List CAMEO3.InputRow) (outputFile : Option (CsvFile CAMEO3.OutputRecord))
    (oracle oracle2 : Nat → CAMEO3.RowOracle) (p : Nat) (st st2 : CAMEO3.MainState)
    (h1 : CAMEO3.main true df_input outputFile oracle = Except.ok st)
    (h2 : CAMEO3.main true df_input
        (applyLog (ensure_output_csv outputFile) (st.log.take p)) oracle2 = Except.ok st2) :
    ResumeLog st.log ∧
    (∀ id, id ∈ CAMEO3.newsIds (applyLog (ensure_output_csv outputFile) (st.log.take p)) →
       id ∉ st2.callLog) ∧
    (∀ q ∈ df_input.enum, pyStrip q.2.Content ≠ "" →
       pyStrip q.2.NewsID ∈ CAMEO3.newsIds st2.output) ∧
    (∀ (df' : List Societal.InputRow) (out' : Option (CsvFile Societal.Record))
       (orc' : Nat → Societal.RowOracle) (st' : Societal.MainState),
       Societal.main true df' out' orc' = Except.ok st' → ResumeLog st'.log) := by
  obtain ⟨f0, hf0⟩ := ensure_isSome outputFile
  obtain ⟨g, hg⟩ := applyLog_isSome (st.log.take p) f0
  have hcrash : applyLog (ensure_output_csv outputFile) (st.log.take p) = some g := by
    rw [hf0]
    exact hg
  rw [hcrash] at h2
  rw [CAMEO3.main_true_eq] at h1 h2
  obtain rfl := Except.ok.inj h2
  obtain rfl := Except.ok.inj h1
  refine ⟨?_, ?_, ?_, ?_⟩
  · obtain ⟨Δ, hΔ, hres⟩ := CAMEO3.loop_log_resume oracle df_input.enum
      { output := ensure_output_csv outputFile
        processed_ids := (load_existing_results (ensure_output_csv outputFile)).map
          (fun r => r.NewsID)
        log := []
        callLog := [] }
    rw [hΔ]
    simpa using hres
  · intro id hid
    rw [hcrash] at hid
    exact CAMEO3.loop_callLog_avoids_processed oracle2 df_input.enum _ id hid (by simp)
  · intro q hq hc
    exact CAMEO3.loop_processed_subset_newsIds oracle2 df_input.enum
      { output := ensure_output_csv (some g)
        processed_ids := (load_existing_results (ensure_output_csv (some g))).map
          (fun r => r.NewsID)
        log := []
        callLog := [] }
      (fun i hi => hi) _
      (CAMEO3.loop_content_processed oracle2 df_input.enum _ q hq hc)
  · intro df' out' orc' st' h'
    rw [Societal.sent_main_true_eq] at h'
    obtain rfl := Except.ok.inj h'
    obtain ⟨Δ, hΔ, hres⟩ := Societal.sent_loop_log_resume orc' df'.enum
      { output := ensure_output_csv out'
        processed_ids := (load_existing_results (ensure_output_csv out')).map
          (fun r => r.NewsID)
        log := [] }
    rw [hΔ]
    simpa using hres

/-- Concrete input row for the C5 witness run. -/
def c5row : CAMEO3.InputRow := ⟨"7", "text", "s", "d", "t"⟩

/-- Concrete oracle for the C5 witness run: every call succeeds, the events
task parses to zero events. -/
def c5oracle : Nat → CAMEO3.RowOracle :=
  fun _ => ⟨fun _ => Except.ok "reply", fun _ => Except.ok ⟨[], none⟩, fun _ => Except.ok "sum"⟩

/-- The single (blank) record the C5 witness run appends. -/
def c5blank : CAMEO3.OutputRecord := CAMEO3.blankRecord "7" c5row "sum"

/-- Final state of the first C5 witness run. -/
def c5st : CAMEO3.MainState :=
  { output := some { headerCount := 1, rows := [c5blank] }
    processed_ids := ["7"]
    log := [MainEvent.append c5blank, MainEvent.addId "7"]
    callLog := ["7", "7"] }

/-- Final state of the restarted C5 witness run (row skipped by resume). -/
def c5st2 : CAMEO3.MainState :=
  { output := some { headerCount := 1, rows := [c5blank] }
    processed_ids := ["7"]
    log := []
    callLog := [] }

/-- Witness for C5: a one-row run, a restart from the file its full log
leaves behind, and the log-shape guarantee for Societal_sentiment. -/
theorem id_added_only_after_all_records_appended_witness :
    ResumeLog c5st.log ∧
    (∀ id, id ∈ CAMEO3.newsIds (applyLog (ensure_output_csv none) (c5st.log.take 2)) →
       id ∉ c5st2.callLog) ∧
    (∀ q ∈ ([c5row] : List CAMEO3.InputRow).enum, pyStrip q.2.Content ≠ "" →
       pyStrip q.2.NewsID ∈ CAMEO3.newsIds c5st2.output) ∧
    (∀ (df' : List Societal.InputRow) (out' : Option (CsvFile Societal.Record))
       (orc' : Nat → Societal.RowOracle) (st' : Societal.MainState),
       Societal.main true df' out' orc' = Except.ok st' → ResumeLog st'.log) :=
  id_added_only_after_all_records_appended [c5row] none c5oracle c5oracle 2 c5st c5st2
    rfl rfl

/-- **C7**: on a two-row table where row A's classification yields zero events
and row B's yields two, the run appends exactly one blank record for A and
exactly two event records for B, and B's two records agree on the identifier,
source, date and summary fields (src/CAMEO-3.py lines 621-667). -/
theorem two_row_scenario (rowA rowB : CAMEO3.InputRow) (oracle : Nat → CAMEO3.RowOracle)
    (evB1 evB2 : CAMEO3.CameoEvent)
    (hA : pyStrip rowA.Content ≠ "") (hB : pyStrip rowB.Content ≠ "")
    (hid : pyStrip rowB.NewsID ≠ pyStrip rowA.NewsID)
    (hca : (CAMEO3.get_cameo_events_with_llm (oracle 0).cameoApi (oracle 0).cameoParse).events
      = [])
    (hcb : (CAMEO3.get_cameo_events_with_llm (oracle 1).cameoApi (oracle 1).cameoParse).events
      = [evB1, evB2]) :
    ∃ st, CAMEO3.main true [rowA, rowB] none oracle = Except.ok st ∧
      st.output = some { headerCount := 1, rows :=
        [CAMEO3.blankRecord (pyStrip rowA.NewsID) rowA
           (CAMEO3.get_summary_with_llm (oracle 0).summaryApi),
         CAMEO3.eventRecord (pyStrip rowB.NewsID) rowB
           (CAMEO3.get_summary_with_llm (oracle 1).summaryApi) evB1,
         CAMEO3.eventRecord (pyStrip rowB.NewsID) rowB
           (CAMEO3.get_summary_with_llm (oracle 1).summaryApi) evB2] } ∧
      (CAMEO3.eventRecord (pyStrip rowB.NewsID) rowB
         (CAMEO3.get_summary_with_llm (oracle 1).summaryApi) evB1).NewsID
        = (CAMEO3.eventRecord (pyStrip rowB.NewsID) rowB
           (CAMEO3.get_summary_with_llm (oracle 1).summaryApi) evB2).NewsID ∧
      (CAMEO3.eventRecord (pyStrip rowB.NewsID) rowB
         (CAMEO3.get_summary_with_llm (oracle 1).summaryApi) evB1).Source
        = (CAMEO3.eventRecord (pyStrip rowB.NewsID) rowB
           (CAMEO3.get_summary_with_llm (oracle 1).summaryApi) evB2).Source ∧
      (CAMEO3.eventRecord (pyStrip rowB.NewsID) rowB
         (CAMEO3.get_summary_with_llm (oracle 1).summaryApi) evB1).Date
        = (CAMEO3.eventRecord (pyStrip rowB.NewsID) rowB
           (CAMEO3.get_summary_with_llm (oracle 1).summaryApi) evB2).Date ∧
      (CAMEO3.eventRecord (pyStrip rowB.NewsID) rowB
         (CAMEO3.get_summary_with_llm (oracle 1).summaryApi) evB1).summary
        = (CAMEO3.eventRecord (pyStrip rowB.NewsID) rowB
           (CAMEO3.get_summary_with_llm (oracle 1).summaryApi) evB2).summary := by
  refine ⟨_, CAMEO3.main_true_eq [rowA, rowB] none oracle, ?_, rfl, rfl, rfl, rfl⟩
  show (CAMEO3.step oracle (CAMEO3.step oracle
      { output := ensure_output_csv none
        processed_ids := (load_existing_results
          (ensure_output_csv (none : Option (CsvFile CAMEO3.OutputRecord)))).map
          (fun r => r.NewsID)
        log := []
        callLog := [] } (0, rowA)) (1, rowB)).output = _
  have hstep1 : CAMEO3.step oracle
      { output := ensure_output_csv none
        processed_ids := (load_existing_results
          (ensure_output_csv (none : Option (CsvFile CAMEO3.OutputRecord)))).map
          (fun r => r.NewsID)
        log := []
        callLog := [] } (0, rowA)
      = { output := some { headerCount := 1, rows :=
            [CAMEO3.blankRecord (pyStrip rowA.NewsID) rowA
              (CAMEO3.get_summary_with_llm (oracle 0).summaryApi)] }
          processed_ids := [pyStrip rowA.NewsID]
          log := [MainEvent.append (CAMEO3.blankRecord (pyStrip rowA.NewsID) rowA
              (CAMEO3.get_summary_with_llm (oracle 0).summaryApi)),
            MainEvent.addId (pyStrip rowA.NewsID)]
          callLog := List.replicate (CAMEO3.rowCallCount (oracle 0)) (pyStrip rowA.NewsID) } := by
    simp only [CAMEO3.step]
    split
    next h0 => exact absurd h0 hA
    next =>
      split
      next hpc =>
        simp [ensure_output_csv, load_existing_results] at hpc
      next =>
        simp [CAMEO3.rowRecords, hca, ensure_output_csv, load_existing_results, append_record]
  rw [hstep1]
  simp only [CAMEO3.step]
  split
  next h0 => exact absurd h0 hB
  next =>
    split
    next hpc => exact absurd (by simpa using hpc) hid
    next =>
      show (CAMEO3.rowRecords (pyStrip rowB.NewsID) rowB
          (CAMEO3.get_cameo_events_with_llm (oracle 1).cameoApi (oracle 1).cameoParse)
          (CAMEO3.get_summary_with_llm (oracle 1).summaryApi)).foldl append_record
          (some { headerCount := 1, rows :=
            [CAMEO3.blankRecord (pyStrip rowA.NewsID) rowA
              (CAMEO3.get_summary_with_llm (oracle 0).summaryApi)] }) = _
      simp [CAMEO3.rowRecords, hcb, append_record]

/-- Concrete rows, events and oracle for the C7 witness. -/
def c7rowA : CAMEO3.InputRow := ⟨"1", "alpha", "sA", "dA", "tA"⟩

/-- Row B of the C7 witness table. -/
def c7rowB : CAMEO3.InputRow := ⟨"2", "beta", "sB", "dB", "tB"⟩

/-- First event detected in row B of the C7 witness table. -/
def c7ev1 : CAMEO3.CameoEvent :=
  ⟨some "1", some "a1", some "b1", some "13", some "138", some "x1", some "q1", some "0.9"⟩

/-- Second event detected in row B of the C7 witness table. -/
def c7ev2 : CAMEO3.CameoEvent :=
  ⟨some "2", some "a2", some "b2", some "19", some "193", some "x2", some "q2", some "0.8"⟩

/-- Oracle for the C7 witness: row 0 parses to zero events, row 1 to two. -/
def c7oracle : Nat → CAMEO3.RowOracle := fun i =>
  if i = 0 then
    ⟨fun _ => Except.ok "ra", fun _ => Except.ok ⟨[], none⟩, fun _ => Except.ok "sumA"⟩
  else
    ⟨fun _ => Except.ok "rb", fun _ => Except.ok ⟨[c7ev1, c7ev2], none⟩,
     fun _ => Except.ok "sumB"⟩

/-- Witness for C7 at the concrete two-row table. -/
theorem two_row_scenario_witness :
    ∃ st, CAMEO3.main true [c7rowA, c7rowB] none c7oracle = Except.ok st ∧
      st.output = some { headerCount := 1, rows :=
        [CAMEO3.blankRecord (pyStrip c7rowA.NewsID) c7rowA
           (CAMEO3.get_summary_with_llm (c7oracle 0).summaryApi),
         CAMEO3.eventRecord (pyStrip c7rowB.NewsID) c7rowB
           (CAMEO3.get_summary_with_llm (c7oracle 1).summaryApi) c7ev1,
         CAMEO3.eventRecord (pyStrip c7rowB.NewsID) c7rowB
           (CAMEO3.get_summary_with_llm (c7oracle 1).summaryApi) c7ev2] } ∧
      (CAMEO3.eventRecord (pyStrip c7rowB.NewsID) c7rowB
         (CAMEO3.get_summary_with_llm (c7oracle 1).summaryApi) c7ev1).NewsID
        = (CAMEO3.eventRecord (pyStrip c7rowB.NewsID) c7rowB
           (CAMEO3.get_summary_with_llm (c7oracle 1).summaryApi) c7ev2).NewsID ∧
      (CAMEO3.eventRecord (pyStrip c7rowB.NewsID) c7rowB
         (CAMEO3.get_summary_with_llm (c7oracle 1).summaryApi) c7ev1).Source
        = (CAMEO3.eventRecord (pyStrip c7rowB.NewsID) c7rowB
           (CAMEO3.get_summary_with_llm (c7oracle 1).summaryApi) c7ev2).Source ∧
      (CAMEO3.eventRecord (pyStrip c7rowB.NewsID) c7rowB
         (CAMEO3.get_summary_with_llm (c7oracle 1).summaryApi) c7ev1).Date
        = (CAMEO3.eventRecord (pyStrip c7rowB.NewsID) c7rowB
           (CAMEO3.get_summary_with_llm (c7oracle 1).summaryApi) c7ev2).Date ∧
      (CAMEO3.eventRecord (pyStrip c7rowB.NewsID) c7rowB
         (CAMEO3.get_summary_with_llm (c7oracle 1).summaryApi) c7ev1).summary
        = (CAMEO3.eventRecord (pyStrip c7rowB.NewsID) c7rowB
           (CAMEO3.get_summary_with_llm (c7oracle 1).summaryApi) c7ev2).summary :=
  two_row_scenario c7rowA c7rowB c7oracle c7ev1 c7ev2
    (by decide) (by decide) (by decide) rfl rfl
